import Mathlib

/-!
Verification of the CraftlyPost content-generation core.

Strings from the JavaScript source are modelled as `List Char` (`Str`).
The multi-provider fallback orchestrator (`_generateContent` in
`src/services/openaiService.js`) is embedded as a function from a
configuration (which provider clients were initialized) and a table of
attempt outcomes to a trace of events (attempts, delays) together with a
final result.  The per-kind post-processors (`generateTextPost`,
`generateImagePost`, `generateVideoScript`), the JSON fence-stripping
normalizer (`_cleanJsonResponse`), the platform-profile lookup
(`_getPlatformContext`), and the UGC ad generator
(`generateUGCAdContent` in `src/services/geminiService.js`) are embedded
directly from the source.  `JSON.parse` is an external library function
and is abstracted as a parameter `parse : Str → Option β`.
-/

namespace CraftlyPost

/-- Strings are modelled as lists of characters. -/
abbrev Str := List Char

/-- Coerce a Lean string literal to the `Str` model. -/
def strC (s : String) : Str := s.toList

/-- Whitespace test used by `trim` and by the `replace` regex `\s`: the
JavaScript WhiteSpace/LineTerminator set — tab, LF, VT, FF, CR, space,
NBSP, U+1680, U+2000..U+200A, U+2028, U+2029, U+202F, U+205F, U+3000 and
the BOM U+FEFF. -/
def isWS (c : Char) : Bool :=
  let n := c.toNat
  n == 9 || n == 10 || n == 11 || n == 12 || n == 13 || n == 32 ||
  n == 0xa0 || n == 0x1680 || (decide (0x2000 ≤ n) && decide (n ≤ 0x200a)) ||
  n == 0x2028 || n == 0x2029 || n == 0x202f || n == 0x205f ||
  n == 0x3000 || n == 0xfeff

/-- Remove leading whitespace (left half of JavaScript `String.trim`). -/
def trimL (s : Str) : Str := s.dropWhile isWS

/-- Remove trailing whitespace (right half of JavaScript `String.trim`). -/
def trimR (s : Str) : Str := (s.reverse.dropWhile isWS).reverse

/-- JavaScript `String.prototype.trim`: strip whitespace from both ends. -/
def trim (s : Str) : Str := trimR (trimL s)

/-- JavaScript `String.prototype.startsWith` on the `Str` model. -/
def startsWith : Str → Str → Bool
  | [], _ => true
  | _ :: _, [] => false
  | c :: p, d :: s => c == d && startsWith p s

/-- JavaScript `String.prototype.endsWith` on the `Str` model. -/
def endsWith (p s : Str) : Bool := startsWith p.reverse s.reverse

/-- Fence stripping from `_cleanJsonResponse` (src/services/openaiService.js
lines 129-142): drop a leading triple-backtick fence (with or without the
`json` tag), drop a trailing triple-backtick fence, then trim.  The final
`JSON.parse` is applied by `cleanJsonResponse`. -/
def stripFences (text : Str) : Str :=
  let c1 := if startsWith (strC "```json") text then text.drop 7 else text
  let c2 := if startsWith (strC "```") c1 then c1.drop 3 else c1
  let c3 := if endsWith (strC "```") c2 then c2.take (c2.length - 3) else c2
  trim c3

/-- Embedding of `_cleanJsonResponse`: strip markdown fences, trim, and parse.
`JSON.parse` is abstracted as the `parse` parameter; `none` models a thrown
`SyntaxError`. -/
def cleanJsonResponse (parse : Str → Option β) (text : Str) : Option β :=
  parse (stripFences text)

/-- JavaScript `String.prototype.split(' ')` on the `Str` model: split at
every single space character, keeping empty fields. -/
def splitSpace : Str → List Str
  | [] => [[]]
  | c :: r =>
    if c = ' ' then [] :: splitSpace r
    else
      match splitSpace r with
      | [] => [[c]]
      | f :: fs => (c :: f) :: fs

/-- Number of space characters of a string; `split(' ').length` is always
this plus one. -/
def spaceCount (s : Str) : Nat := s.countP (fun c => c == ' ')

/-- Modelled from the spec: the number of whitespace-delimited tokens of a
string ("word count = count of whitespace-delimited tokens").  Used only to
compare the spec's wording against the source's `split(' ').length`. -/
def specTokenCount (s : Str) : Nat :=
  (s.foldl
    (fun (acc : Nat × Bool) c =>
      if isWS c then (acc.1, false)
      else if acc.2 then acc else (acc.1 + 1, true))
    (0, false)).1

/-- Decimal rendering of a natural number, for the template literal
`max(1, floor(words / 3)) + " sec"`. -/
def natToChars (n : Nat) : Str := Nat.toDigits 10 n

/-- Platform profile entry of the `_getPlatformContext` table. -/
structure PlatformProfile where
  charLimit : Nat
  hashtagLimit : Nat
  bestPractices : Str
deriving DecidableEq, Repr

/-- Instagram row of the platform table (also the fallback profile). -/
def instagramProfile : PlatformProfile :=
  ⟨2200, 30, strC "Use emojis, line breaks, and storytelling. End with a CTA."⟩

/-- LinkedIn row of the platform table. -/
def linkedinProfile : PlatformProfile :=
  ⟨3000, 5, strC "Professional tone, use bullet points, share insights and value."⟩

/-- Twitter row of the platform table. -/
def twitterProfile : PlatformProfile :=
  ⟨280, 3, strC "Be concise, use hooks, create threads for longer content."⟩

/-- Facebook row of the platform table. -/
def facebookProfile : PlatformProfile :=
  ⟨63206, 10, strC "Tell stories, ask questions, encourage engagement."⟩

/-- TikTok row of the platform table. -/
def tiktokProfile : PlatformProfile :=
  ⟨2200, 10, strC "Trendy, casual, use popular hashtags and hooks."⟩

/-- YouTube row of the platform table. -/
def youtubeProfile : PlatformProfile :=
  ⟨5000, 15, strC "SEO-optimized descriptions, include timestamps and links."⟩

/-- Property names a plain JavaScript object literal inherits from
`Object.prototype`: bracket access with one of these keys returns the
inherited member — a function, or `Object.prototype` itself for the last
four underscore names — all of which are truthy, so an `|| default` never
fires on them. -/
def objectProtoKeys : List Str :=
  [strC "constructor", strC "hasOwnProperty", strC "isPrototypeOf",
   strC "propertyIsEnumerable", strC "toLocaleString", strC "toString",
   strC "valueOf", strC "__proto__", strC "__defineGetter__",
   strC "__defineSetter__", strC "__lookupGetter__", strC "__lookupSetter__"]

/-- Value of the expression `platforms[platform] || platforms.instagram`:
either one of the table's profiles, or — for a key inherited from
`Object.prototype` — the truthy inherited member (named by its key), which
is not a profile at all. -/
inductive PlatformCtx
  | profile : PlatformProfile → PlatformCtx
  | protoMember : Str → PlatformCtx
deriving DecidableEq, Repr

/-- Embedding of `_getPlatformContext` (src/services/openaiService.js lines
44-78): look the platform key up in the fixed table; an own key gives its
profile, a key inherited from `Object.prototype` gives the truthy inherited
member (so the `|| platforms.instagram` default does not fire), and every
other key gives the instagram profile. -/
def getPlatformContext (platform : Str) : PlatformCtx :=
  if platform = strC "instagram" then .profile instagramProfile
  else if platform = strC "linkedin" then .profile linkedinProfile
  else if platform = strC "twitter" then .profile twitterProfile
  else if platform = strC "facebook" then .profile facebookProfile
  else if platform = strC "tiktok" then .profile tiktokProfile
  else if platform = strC "youtube" then .profile youtubeProfile
  else if platform ∈ objectProtoKeys then .protoMember platform
  else .profile instagramProfile

/-- The six platform keys accepted by the request schema. -/
def platformKeys : List Str :=
  [strC "instagram", strC "linkedin", strC "twitter",
   strC "facebook", strC "tiktok", strC "youtube"]

/-- The six rows of the platform table. -/
def platformProfiles : List PlatformProfile :=
  [instagramProfile, linkedinProfile, twitterProfile,
   facebookProfile, tiktokProfile, youtubeProfile]

/-- The three provider backends, in the fixed priority order of
`_generateContent`: OpenAI first, then Gemini, then Groq. -/
inductive Provider
  | openai
  | gemini
  | groq
deriving DecidableEq, Repr

/-- Observable events of one orchestrator run: an adapter attempt (with its
zero-based attempt index within that adapter's loop) or a `setTimeout`
delay in milliseconds. -/
inductive Ev
  | attempt : Provider → Nat → Ev
  | delay : Nat → Ev
deriving DecidableEq, Repr

/-- Which provider clients were initialized (a client exists exactly when the
corresponding API key is present, src/services/openaiService.js lines 6-42). -/
structure Config where
  openai : Bool
  gemini : Bool
  groq : Bool
deriving DecidableEq, Repr

/-- Outcome table for one run: what each adapter attempt would return if it
is made.  `Except.error` carries the thrown error's message. -/
structure Outcomes (α : Type) where
  openai : Except String α
  gemini0 : Except String α
  gemini1 : Except String α
  groq0 : Except String α
  groq1 : Except String α

/-- Terminal errors of `_generateContent`: the exhaustion error thrown inside
the Groq loop (carrying the last underlying cause's message), and the
`No AI provider available` error thrown when control falls off the end. -/
inductive GenError
  | allFailed : String → GenError
  | notConfigured
deriving DecidableEq, Repr

/-- Outcome of a given attempt of a given provider.  OpenAI has a single
attempt; Gemini and Groq have attempts 0 and 1. -/
def outcomeAt (out : Outcomes α) : Provider → Nat → Except String α
  | .openai, _ => out.openai
  | .gemini, 0 => out.gemini0
  | .gemini, _ => out.gemini1
  | .groq, 0 => out.groq0
  | .groq, _ => out.groq1

/-- The Gemini retry loop (src/services/openaiService.js lines 156-168):
attempt 0 with no delay; on failure a 2000 ms delay then attempt 1; both
failures are swallowed and control falls through. -/
def geminiPhase (out : Outcomes α) : List Ev × Option α :=
  match out.gemini0 with
  | .ok v => ([.attempt .gemini 0], some v)
  | .error _ =>
    match out.gemini1 with
    | .ok v => ([.attempt .gemini 0, .delay 2000, .attempt .gemini 1], some v)
    | .error _ => ([.attempt .gemini 0, .delay 2000, .attempt .gemini 1], none)

/-- The Groq retry loop (src/services/openaiService.js lines 171-186): like
the Gemini loop, except that failure of attempt 1 throws the
`All AI providers failed` error carrying that failure's message. -/
def groqPhase (out : Outcomes α) : List Ev × Except String α :=
  match out.groq0 with
  | .ok v => ([.attempt .groq 0], .ok v)
  | .error _ =>
    match out.groq1 with
    | .ok v => ([.attempt .groq 0, .delay 2000, .attempt .groq 1], .ok v)
    | .error m => ([.attempt .groq 0, .delay 2000, .attempt .groq 1], .error m)

/-- Control flow of `_generateContent` after the Gemini block: run the Groq
loop when a Groq client exists, otherwise fall through to the terminal
`No AI provider available` throw at line 188. -/
def afterGemini (cfg : Config) (out : Outcomes α) (tr : List Ev) :
    List Ev × Except GenError α :=
  if cfg.groq then
    match groqPhase out with
    | (tq, .ok v) => (tr ++ tq, .ok v)
    | (tq, .error m) => (tr ++ tq, .error (.allFailed m))
  else (tr, .error .notConfigured)

/-- Control flow of `_generateContent` after the OpenAI block: run the Gemini
loop when a Gemini client exists; on its success return, otherwise continue
with the Groq block. -/
def afterOpenai (cfg : Config) (out : Outcomes α) (tr : List Ev) :
    List Ev × Except GenError α :=
  if cfg.gemini then
    match geminiPhase out with
    | (tg, some v) => (tr ++ tg, .ok v)
    | (tg, none) => afterGemini cfg out (tr ++ tg)
  else afterGemini cfg out tr

/-- Embedding of `_generateContent` (src/services/openaiService.js lines
144-189): OpenAI gets a single attempt whose failure is swallowed, then the
Gemini loop, then the Groq loop, then the terminal throw.  Returns the event
trace together with the result. -/
def generateContent (cfg : Config) (out : Outcomes α) :
    List Ev × Except GenError α :=
  if cfg.openai then
    match out.openai with
    | .ok v => ([.attempt .openai 0], .ok v)
    | .error _ => afterOpenai cfg out [.attempt .openai 0]
  else afterOpenai cfg out []

/-- Attempt events of a given provider. -/
def isAttemptOf (p : Provider) : Ev → Bool
  | .attempt q _ => p == q
  | .delay _ => false

/-- A trace is well-delayed when every delay is the fixed 2000 ms delay and
stands immediately before a retry attempt (index ≥ 1), and every retry
attempt is immediately preceded by such a delay; in particular no delay ever
precedes an adapter's first attempt. -/
def wellDelayed : List Ev → Bool
  | [] => true
  | .delay 2000 :: .attempt _ (_ + 1) :: r => wellDelayed r
  | .delay _ :: _ => false
  | .attempt _ (_ + 1) :: _ => false
  | .attempt _ 0 :: r => wellDelayed r

/-- Last event of a trace. -/
def lastEv : List Ev → Option Ev
  | [] => none
  | [e] => some e
  | _ :: r => lastEv r

/-- Success test for an attempt outcome. -/
def exOk : Except String α → Bool
  | .ok _ => true
  | .error _ => false

/-- Every attempt in the trace other than the final event has a failing
outcome: a successful attempt is never followed by anything. -/
def noEarlySuccess (out : Outcomes α) : List Ev → Bool
  | [] => true
  | [_] => true
  | .attempt p i :: r => !exOk (outcomeAt out p i) && noEarlySuccess out r
  | .delay _ :: r => noEarlySuccess out r

/-- When the run succeeds, its value is the outcome of the last attempt in
the trace (the successful attempt's own result, returned immediately). -/
def returnsLastAttempt (out : Outcomes α) (tr : List Ev)
    (res : Except GenError α) : Prop :=
  match res with
  | .error _ => True
  | .ok v =>
    match lastEv tr with
    | some (.attempt p i) => outcomeAt out p i = .ok v
    | _ => False

/-- Position of a provider in the fixed fallback order. -/
def priorityOf : Provider → Nat
  | .openai => 0
  | .gemini => 1
  | .groq => 2

/-- Providers of the attempt events of a trace, in trace order. -/
def provsOf (tr : List Ev) : List Provider :=
  tr.filterMap fun e =>
    match e with
    | .attempt p _ => some p
    | .delay _ => none

/-- A list of naturals is weakly increasing. -/
def ascending : List Nat → Bool
  | a :: b :: r => a ≤ b && ascending (b :: r)
  | _ => true

/-- Validated generation request (src/models/schemas.js): the text/image
requests carry the three feature toggles; the video request carries a
duration instead. -/
structure GenRequest where
  topic : Str := []
  platform : Str := []
  tone : Str := []
  goal : Str := []
  includeHashtags : Bool := true
  includeCTA : Bool := true
  includeEmojis : Bool := true
  duration : Str := strC "30s"

/-- Parsed provider output.  Each field is optional: a JavaScript object may
lack any of them, and the post-processors default missing fields with
`|| ''` / `|| []`. -/
structure GenResult where
  caption : Option Str := none
  hashtags : Option (List Str) := none
  cta : Option Str := none
  imagePrompt : Option Str := none
  hook : Option Str := none
  script : Option Str := none

/-- Derived statistics block shared by the three content kinds. -/
structure ContentStats where
  characters : Nat
  words : Nat
  readTime : Str
  engagementScore : Str
deriving DecidableEq, Repr

/-- Response object of `generateTextPost`. -/
structure TextPostResponse where
  success : Bool
  caption : Str
  hashtags : List Str
  cta : Str
  stats : ContentStats
  creditsUsed : Nat
  creditsRemaining : Nat

/-- Response object of `generateImagePost`. -/
structure ImagePostResponse where
  success : Bool
  caption : Str
  hashtags : List Str
  cta : Str
  imagePrompt : Str
  stats : ContentStats
  creditsUsed : Nat
  creditsRemaining : Nat

/-- Response object of `generateVideoScript`. -/
structure VideoScriptResponse where
  success : Bool
  hook : Str
  script : Str
  cta : Str
  hashtags : List Str
  stats : ContentStats
  creditsUsed : Nat
  creditsRemaining : Nat

/-- Response construction of `generateTextPost` (src/services/openaiService.js
lines 224-240): default the caption, count words by `split(' ').length`,
apply the `includeHashtags` / `includeCTA` toggles, and compute stats; the
engagement score tests the provider-returned hashtag list (`result.hashtags?`,
absent giving `undefined >= 5`, hence false). -/
def postProcessText (request : GenRequest) (result : GenResult) :
    TextPostResponse :=
  let caption := result.caption.getD []
  let words := (splitSpace caption).length
  { success := true
    caption := caption
    hashtags := if request.includeHashtags then result.hashtags.getD [] else []
    cta := if request.includeCTA then result.cta.getD [] else []
    stats :=
      { characters := caption.length
        words := words
        readTime := natToChars (max 1 (words / 3)) ++ strC " sec"
        engagementScore :=
          match result.hashtags with
          | some hs => if 5 ≤ hs.length then strC "High" else strC "Medium"
          | none => strC "Medium" }
    creditsUsed := 1
    creditsRemaining := 149 }

/-- Response construction of `generateImagePost` (src/services/openaiService.js
lines 263-280): hashtags, CTA and image prompt are passed through with
defaults — the request toggles are not consulted — and the engagement score
is the constant `'High'`. -/
def postProcessImage (_request : GenRequest) (result : GenResult) :
    ImagePostResponse :=
  let caption := result.caption.getD []
  let words := (splitSpace caption).length
  { success := true
    caption := caption
    hashtags := result.hashtags.getD []
    cta := result.cta.getD []
    imagePrompt := result.imagePrompt.getD []
    stats :=
      { characters := caption.length
        words := words
        readTime := natToChars (max 1 (words / 3)) ++ strC " sec"
        engagementScore := strC "High" }
    creditsUsed := 2
    creditsRemaining := 23 }

/-- Response construction of `generateVideoScript`
(src/services/openaiService.js lines 304-321): stats are computed from the
script field and the engagement score is the constant `'High'`. -/
def postProcessVideo (_request : GenRequest) (result : GenResult) :
    VideoScriptResponse :=
  let script := result.script.getD []
  let words := (splitSpace script).length
  { success := true
    hook := result.hook.getD []
    script := script
    cta := result.cta.getD []
    hashtags := result.hashtags.getD []
    stats :=
      { characters := script.length
        words := words
        readTime := natToChars (max 1 (words / 3)) ++ strC " sec"
        engagementScore := strC "High" }
    creditsUsed := 3
    creditsRemaining := 7 }

/-- `generateTextPost` as a whole: orchestrate, then post-process the
successful result; an orchestrator error propagates unchanged (the route
handler turns it into a 500 error response). -/
def generateTextPost (request : GenRequest) (cfg : Config)
    (out : Outcomes GenResult) : Except GenError TextPostResponse :=
  Except.map (postProcessText request) (generateContent cfg out).2

/-- `generateImagePost` as a whole: orchestrate, then post-process. -/
def generateImagePost (request : GenRequest) (cfg : Config)
    (out : Outcomes GenResult) : Except GenError ImagePostResponse :=
  Except.map (postProcessImage request) (generateContent cfg out).2

/-- `generateVideoScript` as a whole: orchestrate, then post-process. -/
def generateVideoScript (request : GenRequest) (cfg : Config)
    (out : Outcomes GenResult) : Except GenError VideoScriptResponse :=
  Except.map (postProcessVideo request) (generateContent cfg out).2

/-- Adapter normalization step shared by `_generateWithGemini` (lines 95-109)
and `_generateWithGroq` (lines 111-127): given the model call's outcome (its
raw text, or a thrown error), trim the text and run `_cleanJsonResponse`;
a parse failure is a thrown `SyntaxError`, i.e. this adapter's failure. -/
def adapterNormalize (parse : Str → Option β) (modelOutcome : Except String Str) :
    Except String β :=
  match modelOutcome with
  | .error e => .error e
  | .ok raw =>
    match cleanJsonResponse parse (trim raw) with
    | some v => .ok v
    | none => .error "Unexpected token in JSON"

/-- UGC ad request (src/models/schemas.js `UGCAdRequest`). -/
structure UGCRequest where
  productName : Str
  productDescription : Str
  adType : Str
  imageFormat : Str
  visualStyle : Str
  mood : Str
  targetAudience : Option Str := none
  additionalDetails : Option Str := none

/-- Fields expected in Gemini's parsed JSON answer for a UGC ad. -/
structure UGCFields where
  imagePrompt : Str
  caption : Str
  hashtags : List Str
  cta : Str
deriving DecidableEq, Repr

/-- Marketing stats block attached to every UGC ad result. -/
structure UGCStats where
  estimatedReach : Str
  engagementRate : Str
  recommendedBudget : Str
  bestTimeToPost : Str
deriving DecidableEq, Repr

/-- The fixed stats attached by `generateUGCAdContent`
(src/services/geminiService.js lines 131-136 and 149-154). -/
def fixedUGCStats : UGCStats :=
  ⟨strC "5K-15K", strC "3.5-7%", strC "$50-200", strC "Mon-Fri, 6-9 PM"⟩

/-- Value returned by `generateUGCAdContent`. -/
structure UGCResponse where
  imagePrompt : Str
  caption : Str
  hashtags : List Str
  cta : Str
  stats : UGCStats
deriving DecidableEq, Repr

/-- Value of a JavaScript string-or-default lookup on an object literal:
either a string, or — for a key inherited from `Object.prototype` — the
truthy inherited member, tagged with its key. -/
inductive JsStr
  | str : Str → JsStr
  | protoFn : Str → JsStr
deriving DecidableEq, Repr

/-- The `adTypeMap` lookup (src/services/geminiService.js lines 59-66, 70):
`adTypeMap[adType] || adType` — an own key maps to its display name, an
`Object.prototype` key yields the truthy inherited function (the `||` does
not fire), any other key falls back to the key itself. -/
def adTypeName (adType : Str) : JsStr :=
  if adType = strC "testimonial" then .str (strC "Testimonial")
  else if adType = strC "before-after" then .str (strC "Before/After")
  else if adType = strC "unboxing" then .str (strC "Unboxing")
  else if adType = strC "lifestyle" then .str (strC "Lifestyle")
  else if adType = strC "product-showcase" then .str (strC "Product Focus")
  else if adType = strC "user-story" then .str (strC "User Story")
  else if adType ∈ objectProtoKeys then .protoFn adType
  else .str adType

/-- The `styleMap` lookup (src/services/geminiService.js lines 51-56, 69):
`styleMap[visualStyle] || 'authentic'` — an own key maps to its description,
an `Object.prototype` key yields the truthy inherited function, any other
key falls back to the string `'authentic'`. -/
def styleDescOf (visualStyle : Str) : JsStr :=
  if visualStyle = strC "authentic" then .str (strC "Raw, real, unpolished")
  else if visualStyle = strC "minimal" then .str (strC "Clean, simple, modern")
  else if visualStyle = strC "vibrant" then .str (strC "Bold, colorful, energetic")
  else if visualStyle = strC "professional" then .str (strC "Polished, studio-quality")
  else if visualStyle ∈ objectProtoKeys then .protoFn visualStyle
  else .str (strC "authentic")

/-- JavaScript `String.prototype.toLowerCase` on the `Str` model. -/
def toLowerStr (s : Str) : Str := s.map Char.toLower

/-- Template-literal rendering of a lookup value: a string interpolates as
itself; an inherited function interpolates as its engine-rendered source
text, supplied by the environment parameter `render`. -/
def jsRender (render : Str → Str) : JsStr → Str
  | .str s => s
  | .protoFn k => render k

/-- The fabricated fallback built in the catch block of
`generateUGCAdContent` (src/services/geminiService.js lines 144-155).  Its
first field calls `adTypeName.toLowerCase()`: when `adTypeName` is an
inherited `Object.prototype` function that call itself throws a TypeError
(modelled with a fixed message), so the catch block fails instead of
returning an object.  The interpolation `${styleDesc}` never throws; an
inherited function there is stringified via `render`. -/
def ugcFallback (render : Str → Str) (req : UGCRequest) :
    Except String UGCResponse :=
  match adTypeName req.adType with
  | .protoFn _ => .error "TypeError: adTypeName.toLowerCase is not a function"
  | .str name =>
    .ok
      { imagePrompt :=
          strC "Create a realistic UGC-style " ++ toLowerStr name
            ++ strC " ad for " ++ req.productName ++ strC ". "
            ++ req.productDescription ++ strC ". Visual style: "
            ++ jsRender render (styleDescOf req.visualStyle)
            ++ strC ". Mood: " ++ req.mood
            ++ strC ". Make it look authentic, natural, and user-generated."
        caption :=
          strC "Just tried " ++ req.productName ++ strC " and I\x27m obsessed! 😍 "
            ++ req.productDescription.take 100 ++ strC "... You NEED to try this!"
        hashtags :=
          [strC "#" ++ req.productName.filter (fun c => !isWS c),
           strC "#UGC", strC "#Viral", strC "#MustTry", strC "#ProductReview"]
        cta := strC "Tap the link in bio to get " ++ req.productName ++ strC " now!"
        stats := fixedUGCStats }

/-- Embedding of `generateUGCAdContent` (src/services/geminiService.js lines
28-157): when unconfigured, throw; otherwise call the model, trim and
fence-strip its text and parse it; any error in the try block — model-call
failure or JSON parse failure alike — lands in the catch block, which
evaluates the fabricated fallback (itself throwing a TypeError when the
request's `adType` is an inherited `Object.prototype` key). -/
def generateUGCAdContent (configured : Bool) (req : UGCRequest)
    (parse : Str → Option UGCFields) (modelOutcome : Except String Str)
    (render : Str → Str) : Except String UGCResponse :=
  if !configured then
    .error "Gemini API is not configured. Please set GOOGLE_API_KEY in .env"
  else
    match modelOutcome with
    | .ok raw =>
      match parse (stripFences (trim raw)) with
      | some f => .ok ⟨f.imagePrompt, f.caption, f.hashtags, f.cta, fixedUGCStats⟩
      | none => ugcFallback render req
    | .error _ => ugcFallback render req

/-- Response object of the `POST /content/generate/ugc-ad` route. -/
structure UGCRouteResponse where
  success : Bool
  imagePrompt : Str
  caption : Str
  hashtags : List Str
  cta : Str
  stats : UGCStats
  creditsUsed : Nat
  creditsRemaining : Nat
  generatedImageUrl : Option Str

/-- Response construction of the UGC ad route (src/unnamed/part_003 lines
242-252): passes the generated content through and reports the fixed
`creditsUsed: 2`. -/
def ugcRouteResponse (result : UGCResponse) (url : Option Str) :
    UGCRouteResponse :=
  { success := true
    imagePrompt := result.imagePrompt
    caption := result.caption
    hashtags := result.hashtags
    cta := result.cta
    stats := result.stats
    creditsUsed := 2
    creditsRemaining := 1000
    generatedImageUrl := url }

/-! Helper lemmas. -/

/-- The `split(' ')` field list is never empty. -/
theorem splitSpace_ne_nil : ∀ s : Str, splitSpace s ≠ []
  | [] => by simp [splitSpace]
  | c :: r => by
    simp only [splitSpace]
    split
    · simp
    · split <;> simp

/-- Length of the `split(' ')` field list: one more than the number of
space characters. -/
theorem splitSpace_length (s : Str) : (splitSpace s).length = spaceCount s + 1 := by
  induction s with
  | nil => simp [splitSpace, spaceCount]
  | cons c r ih =>
    by_cases h : c = ' '
    · simp [splitSpace, spaceCount, h, List.countP_cons, ih]
      try omega
    · have hne := splitSpace_ne_nil r
      cases hsp : splitSpace r with
      | nil => exact absurd hsp hne
      | cons f fs =>
        rw [hsp] at ih
        simp [splitSpace, spaceCount, h, List.countP_cons, hsp] at *
        omega

/-- `dropWhile` over an append. -/
theorem dropWhile_append_eq (p : Char → Bool) (l r : Str) :
    (l ++ r).dropWhile p =
      if (l.dropWhile p).isEmpty then r.dropWhile p else l.dropWhile p ++ r := by
  induction l with
  | nil => simp
  | cons c l ih =>
    by_cases h : p c
    · simpa [List.dropWhile_cons, h] using ih
    · simp [List.dropWhile_cons, h]

/-- Dropping a trailing whitespace character does not change `trimR`. -/
theorem trimR_snoc (c : Char) (h : isWS c = true) (s : Str) :
    trimR (s ++ [c]) = trimR s := by
  simp [trimR, List.reverse_append, List.dropWhile_cons, h]

/-- Wrapping a string in a leading and a trailing newline does not change
its trim. -/
theorem trim_wrap (t : Str) : trim (('\n' :: t) ++ ['\n']) = trim t := by
  have hnl : isWS '\n' = true := rfl
  have h1 : trimL (('\n' :: t) ++ ['\n']) = trimL (t ++ ['\n']) := by
    simp [trimL, List.cons_append, List.dropWhile_cons, hnl]
  rw [trim, trim, h1]
  rw [show trimL (t ++ ['\n']) = (t ++ ['\n']).dropWhile isWS from rfl,
    dropWhile_append_eq]
  by_cases h : (t.dropWhile isWS).isEmpty
  · have ht : trimL t = [] := by
      simpa [trimL, List.isEmpty_iff] using h
    simp [h, ht, trimR, List.dropWhile_cons, hnl]
  · have ht : trimL t = t.dropWhile isWS := rfl
    simp only [h, if_false, Bool.false_eq_true]
    rw [← ht, trimR_snoc '\n' hnl]

/-- A list starts with itself followed by anything. -/
theorem startsWith_append_self (p r : Str) : startsWith p (p ++ r) = true := by
  induction p with
  | nil => simp [startsWith]
  | cons c p ih => simp [startsWith, ih]

/-- A list ends with itself preceded by anything. -/
theorem endsWith_append_self (p x : Str) : endsWith p (x ++ p) = true := by
  rw [endsWith, List.reverse_append]
  exact startsWith_append_self p.reverse x.reverse

/-- If a list starts with an extended pattern, it starts with the shorter
pattern. -/
theorem startsWith_of_append (p q s : Str)
    (h : startsWith (p ++ q) s = true) : startsWith p s = true := by
  induction p generalizing s with
  | nil => simp [startsWith]
  | cons c p ih =>
    cases s with
    | nil => simp [startsWith] at h
    | cons d s =>
      simp only [List.cons_append, startsWith, Bool.and_eq_true] at h ⊢
      exact ⟨h.1, ih s h.2⟩

/-- Fence stripping on an unfenced body is just `trim`. -/
theorem stripFences_bare (t : Str)
    (h1 : startsWith (strC "```") t = false)
    (h2 : endsWith (strC "```") t = false) :
    stripFences t = trim t := by
  have h0 : startsWith (strC "```json") t = false := by
    cases hsw : startsWith (strC "```json") t
    · rfl
    · have := startsWith_of_append (strC "```") (strC "json") t
        (by rw [show strC "```" ++ strC "json" = strC "```json" from rfl]; exact hsw)
      rw [this] at h1
      exact absurd h1 (by simp)
  simp [stripFences, h0, h1, h2]

/-- Fence stripping on a fenced body is `trim` of the body. -/
theorem stripFences_fenced (t : Str) :
    stripFences (strC "```json\n" ++ (t ++ strC "\n```")) = trim t := by
  have hA : startsWith (strC "```json") (strC "```json\n" ++ (t ++ strC "\n```"))
      = true := rfl
  have hdrop : (strC "```json\n" ++ (t ++ strC "\n```")).drop 7
      = '\n' :: (t ++ strC "\n```") := rfl
  have hB : startsWith (strC "```") ('\n' :: (t ++ strC "\n```")) = false := rfl
  have hsplit : '\n' :: (t ++ strC "\n```") = (('\n' :: t) ++ ['\n']) ++ strC "```" := by
    rw [show strC "\n```" = '\n' :: strC "```" from rfl]
    simp [List.cons_append, List.append_assoc]
  have hC : endsWith (strC "```") ('\n' :: (t ++ strC "\n```")) = true := by
    rw [hsplit]; exact endsWith_append_self _ _
  have hlen : ('\n' :: (t ++ strC "\n```")).length - 3 = (('\n' :: t) ++ ['\n']).length := by
    simp [List.length_append, strC]
  have htake : ('\n' :: (t ++ strC "\n```")).take (('\n' :: (t ++ strC "\n```")).length - 3)
      = ('\n' :: t) ++ ['\n'] := by
    rw [hlen, hsplit]
    exact List.take_left _ _
  simp only [stripFences, hA, if_true, hdrop, hB, Bool.false_eq_true, if_false, hC, htake]
  exact trim_wrap t

/-! Claim theorems. -/

/-- C5 counterexample input: an image-post request that opts out of hashtags
and CTA. -/
def reqC5 : GenRequest :=
  { topic := strC "new running shoes", platform := strC "instagram",
    tone := strC "casual", goal := strC "engagement",
    includeHashtags := false, includeCTA := false }

/-- C5 counterexample adapter output carrying a hashtag and a CTA. -/
def resC5 : GenResult :=
  { caption := some (strC "Run fast"), hashtags := some [strC "#run"],
    cta := some (strC "Buy now") }

/-- C5, counterexample: `generateImagePost` ignores the feature toggles — with
`includeHashtags = false` and `includeCTA = false` the image-post response
still carries the adapter's hashtags and CTA, so the claim's image-post half
is false. -/
theorem C5_counterexample :
    reqC5.includeHashtags = false ∧ reqC5.includeCTA = false ∧
    (postProcessImage reqC5 resC5).hashtags = [strC "#run"] ∧
    (postProcessImage reqC5 resC5).hashtags ≠ [] ∧
    (postProcessImage reqC5 resC5).cta = strC "Buy now" ∧
    (postProcessImage reqC5 resC5).cta ≠ [] :=
  ⟨rfl, rfl, rfl, by decide, rfl, by decide⟩

/-- C5, amended: the text-post post-processor applies the `includeHashtags`
and `includeCTA` toggles (empty when opted out, the adapter's raw output when
opted in); the image-post post-processor passes the adapter's hashtags and
CTA through unconditionally, ignoring the toggles. -/
theorem C5_toggles (request : GenRequest) (result : GenResult) :
    (postProcessText request result).hashtags
        = (if request.includeHashtags then result.hashtags.getD [] else []) ∧
    (postProcessText request result).cta
        = (if request.includeCTA then result.cta.getD [] else []) ∧
    (postProcessImage request result).hashtags = result.hashtags.getD [] ∧
    (postProcessImage request result).cta = result.cta.getD [] :=
  ⟨rfl, rfl, rfl, rfl⟩

/-- C6 counterexample adapter output: zero hashtags. -/
def resC6 : GenResult :=
  { caption := some (strC "Hello world"), hashtags := some [] }

/-- C6 request used at the counterexample (toggles all default). -/
def reqC6 : GenRequest := { topic := strC "greeting" }

/-- C6, counterexample: the image-post post-processor reports the engagement
score `High` even though the provider returned zero hashtags, so the
`High iff hashtag count ≥ 5` claim fails for the image-post kind. -/
theorem C6_counterexample :
    (postProcessImage reqC6 resC6).stats.engagementScore = strC "High" ∧
    (resC6.hashtags.getD []).length < 5 :=
  ⟨rfl, by decide⟩

/-- C6, amended: only the text-post post-processor computes the engagement
score from the provider-returned (pre-toggle) hashtag count (`High` iff at
least 5, with an absent hashtag field scoring `Medium`); the image-post and
video-script post-processors always report the constant `High`. -/
theorem C6_engagement (request : GenRequest) (result : GenResult) :
    ((postProcessText request result).stats.engagementScore = strC "High"
        ↔ 5 ≤ (result.hashtags.getD []).length) ∧
    (postProcessImage request result).stats.engagementScore = strC "High" ∧
    (postProcessVideo request result).stats.engagementScore = strC "High" := by
  refine ⟨?_, rfl, rfl⟩
  cases h : result.hashtags with
  | none => simp only [postProcessText, h, Option.getD]; decide
  | some hs =>
    by_cases h5 : 5 ≤ hs.length
    · simp [postProcessText, h, h5]
    · simp [postProcessText, h, h5]
      decide

/-- C6 witness request. -/
def reqC6w : GenRequest := { topic := strC "shoes" }

/-- C6 witness adapter output with five hashtags. -/
def resC6w : GenResult :=
  { caption := some (strC "Run faster, feel lighter."),
    hashtags := some [strC "#run", strC "#shoes", strC "#fitness",
      strC "#gear", strC "#new"] }

/-- C6 witness: at five provider-returned hashtags the text-post score is
`High`. -/
theorem C6_witness :
    (postProcessText reqC6w resC6w).stats.engagementScore = strC "High" :=
  (C6_engagement reqC6w resC6w).1.mpr (by decide)

/-- C7 counterexample adapter output: a caption whose only whitespace is a
newline. -/
def resC7 : GenResult := { caption := some (strC "a\nb") }

/-- C7 request used at the counterexample. -/
def reqC7 : GenRequest := { topic := strC "counterexample" }

/-- C7, counterexample: the source counts words with `split(' ').length`,
which sees the caption `"a\nb"` as a single space-separated field (1 word),
while the claim's whitespace-delimited token count is 2; the claimed equality
fails. -/
theorem C7_counterexample :
    (postProcessText reqC7 resC7).stats.words = 1 ∧
    specTokenCount (strC "a\nb") = 2 ∧
    (postProcessText reqC7 resC7).stats.words
      ≠ specTokenCount (resC7.caption.getD []) := by
  refine ⟨rfl, rfl, ?_⟩ ; decide

/-- C7, amended: for every primary text field — the caption for text and
image posts, the script for video scripts — character count is that field's
length; word count is the number of `split(' ')` fields, i.e. one more than
the number of space characters (not the whitespace-delimited token count);
read time renders `max(1, floor(words / 3))` followed by `" sec"`; and these
stats are pure functions of that field — equal fields yield equal stats. -/
theorem C7_stats (req1 req2 : GenRequest) (result1 result2 : GenResult)
    (hcap : result1.caption.getD [] = result2.caption.getD [])
    (hscr : result1.script.getD [] = result2.script.getD []) :
    (postProcessText req1 result1).stats.characters
        = (result1.caption.getD []).length ∧
    (postProcessText req1 result1).stats.words
        = spaceCount (result1.caption.getD []) + 1 ∧
    (postProcessText req1 result1).stats.readTime
        = natToChars (max 1 ((spaceCount (result1.caption.getD []) + 1) / 3))
            ++ strC " sec" ∧
    (postProcessImage req1 result1).stats.characters
        = (result1.caption.getD []).length ∧
    (postProcessImage req1 result1).stats.words
        = spaceCount (result1.caption.getD []) + 1 ∧
    (postProcessImage req1 result1).stats.readTime
        = natToChars (max 1 ((spaceCount (result1.caption.getD []) + 1) / 3))
            ++ strC " sec" ∧
    (postProcessVideo req1 result1).stats.characters
        = (result1.script.getD []).length ∧
    (postProcessVideo req1 result1).stats.words
        = spaceCount (result1.script.getD []) + 1 ∧
    (postProcessVideo req1 result1).stats.readTime
        = natToChars (max 1 ((spaceCount (result1.script.getD []) + 1) / 3))
            ++ strC " sec" ∧
    (postProcessText req1 result1).stats.characters
        = (postProcessText req2 result2).stats.characters ∧
    (postProcessText req1 result1).stats.words
        = (postProcessText req2 result2).stats.words ∧
    (postProcessText req1 result1).stats.readTime
        = (postProcessText req2 result2).stats.readTime ∧
    (postProcessImage req1 result1).stats = (postProcessImage req2 result2).stats ∧
    (postProcessVideo req1 result1).stats = (postProcessVideo req2 result2).stats := by
  refine ⟨rfl, ?_, ?_, rfl, ?_, ?_, rfl, ?_, ?_, ?_, ?_, ?_, ?_, ?_⟩
  · simp [postProcessText, splitSpace_length]
  · simp [postProcessText, splitSpace_length]
  · simp [postProcessImage, splitSpace_length]
  · simp [postProcessImage, splitSpace_length]
  · simp [postProcessVideo, splitSpace_length]
  · simp [postProcessVideo, splitSpace_length]
  · simp [postProcessText, hcap]
  · simp [postProcessText, hcap]
  · simp [postProcessText, hcap]
  · simp [postProcessImage, hcap]
  · simp [postProcessVideo, hscr]

/-- C7 witness adapter output (the spec's own example caption, also used as
a script). -/
def resC7w : GenResult :=
  { caption := some (strC "Run faster, feel lighter."),
    script := some (strC "Run faster, feel lighter.") }

/-- C7 witness request. -/
def reqC7w : GenRequest := { topic := strC "shoes" }

/-- C7 witness: on the spec's example caption the amended stats theorem
applies with the purity hypotheses discharged reflexively. -/
theorem C7_witness :
    (postProcessText reqC7w resC7w).stats.words
      = spaceCount (resC7w.caption.getD []) + 1 :=
  (C7_stats reqC7w reqC7w resC7w resC7w rfl rfl).2.1

/-- C8: fence-stripping equivalence — for every JSON body `t` (JSON text
neither starts nor ends with a backtick fence), `_cleanJsonResponse` parses
the fenced form and the bare form to identical results, for every parse
function. -/
theorem C8_fence_equiv {β : Type} (parse : Str → Option β) (t : Str)
    (h1 : startsWith (strC "```") t = false)
    (h2 : endsWith (strC "```") t = false) :
    cleanJsonResponse parse (strC "```json\n" ++ (t ++ strC "\n```"))
      = cleanJsonResponse parse t := by
  unfold cleanJsonResponse
  rw [stripFences_fenced, stripFences_bare t h1 h2]

/-- C8 witness: at a concrete JSON body, fenced and bare inputs normalize
identically (with the identity-like parse returning the cleaned text). -/
theorem C8_witness :
    cleanJsonResponse some (strC "```json\n" ++ (strC "[1, 2]" ++ strC "\n```"))
      = cleanJsonResponse some (strC "[1, 2]") :=
  C8_fence_equiv some (strC "[1, 2]") (by decide) (by decide)

/-- C9: the credits-used counter of every successful response is a fixed
per-kind constant, independent of the request and of the adapter output:
1 for a text post, 2 for an image post, 3 for a video script, and 2 for a
UGC ad (reported by the route handler). -/
theorem C9_credits_constant (request : GenRequest) (result : GenResult)
    (ugc : UGCResponse) (url : Option Str) :
    (postProcessText request result).creditsUsed = 1 ∧
    (postProcessImage request result).creditsUsed = 2 ∧
    (postProcessVideo request result).creditsUsed = 3 ∧
    (ugcRouteResponse ugc url).creditsUsed = 2 :=
  ⟨rfl, rfl, rfl, rfl⟩

/-- C10, counterexample: the claim quantifies over every platform string,
but at the `Object.prototype` key `"constructor"` — outside the six-value
enum — the lookup returns the truthy inherited member, not the instagram
profile, so the claim is false of the program. -/
theorem C10_counterexample :
    strC "constructor" ∉ platformKeys ∧
    getPlatformContext (strC "constructor")
      = PlatformCtx.protoMember (strC "constructor") ∧
    getPlatformContext (strC "constructor")
      ≠ PlatformCtx.profile instagramProfile :=
  ⟨by decide, rfl, by decide⟩

/-- C10, amended: the lookup is total and never fails, and every platform
string outside both the six-key table and the `Object.prototype` member
names maps to the instagram profile; but the twelve inherited
`Object.prototype` member names map to the truthy inherited member, which is
not a profile; the six own keys map to their own profiles. -/
theorem C10_platform_lookup (p : Str) :
    (p ∉ platformKeys → p ∉ objectProtoKeys →
      getPlatformContext p = .profile instagramProfile) ∧
    (p ∈ objectProtoKeys → getPlatformContext p = .protoMember p) ∧
    (p ∈ platformKeys →
      getPlatformContext p ∈ platformProfiles.map PlatformCtx.profile) := by
  unfold getPlatformContext
  split_ifs with h1 h2 h3 h4 h5 h6 h7
  · subst h1
    exact ⟨fun hk _ => absurd (by decide) hk, fun hp => absurd hp (by decide),
      fun _ => by decide⟩
  · subst h2
    exact ⟨fun hk _ => absurd (by decide) hk, fun hp => absurd hp (by decide),
      fun _ => by decide⟩
  · subst h3
    exact ⟨fun hk _ => absurd (by decide) hk, fun hp => absurd hp (by decide),
      fun _ => by decide⟩
  · subst h4
    exact ⟨fun hk _ => absurd (by decide) hk, fun hp => absurd hp (by decide),
      fun _ => by decide⟩
  · subst h5
    exact ⟨fun hk _ => absurd (by decide) hk, fun hp => absurd hp (by decide),
      fun _ => by decide⟩
  · subst h6
    exact ⟨fun hk _ => absurd (by decide) hk, fun hp => absurd hp (by decide),
      fun _ => by decide⟩
  · refine ⟨fun _ hq => absurd h7 hq, fun _ => rfl, fun hk => ?_⟩
    simp [platformKeys] at hk
    tauto
  · refine ⟨fun _ _ => rfl, fun hp => absurd hp h7, fun hk => ?_⟩
    simp [platformKeys] at hk
    tauto

/-- C10 witness: an ordinary string outside both the platform enum and the
prototype members resolves to the instagram profile. -/
theorem C10_witness :
    getPlatformContext (strC "threads") = PlatformCtx.profile instagramProfile :=
  (C10_platform_lookup (strC "threads")).1 (by decide) (by decide)

/-- C1 counterexample configuration: only Gemini is configured. -/
def cfgC1 : Config := ⟨false, true, false⟩

/-- C1 counterexample outcomes: every attempt fails. -/
def outC1 : Outcomes Nat :=
  ⟨.error "openai down", .error "gemini 429", .error "gemini 500",
    .error "groq down", .error "groq down again"⟩

/-- C1, counterexample: with Gemini configured (at least one adapter) and
every configured attempt failing, the orchestrator falls through to the
`not configured` error instead of an error naming the last underlying cause
(Gemini's second failure), so the claim's exhaustion half is false. -/
theorem C1_counterexample :
    cfgC1.gemini = true ∧
    (generateContent cfgC1 outC1).2 = Except.error GenError.notConfigured ∧
    Except.error GenError.notConfigured
      ≠ (Except.error (GenError.allFailed "gemini 500") : Except GenError Nat) :=
  ⟨rfl, rfl, by simp⟩

/-- C1, amended: with zero adapters configured the orchestrator fails
immediately — no attempt, no delay — with the distinct `not configured`
error; when Groq (the last adapter) is configured and every configured
adapter exhausts its attempts, it fails with the error naming the last
underlying cause (Groq's second failure); but when Groq is not configured
and every configured adapter fails, it falls through to the same
`not configured` error rather than one naming the last cause. -/
theorem C1_error_modes {α : Type} (cfg : Config) (out : Outcomes α)
    (e0 e1 e2 e3 m : String)
    (h0 : out.openai = .error e0) (h1 : out.gemini0 = .error e1)
    (h2 : out.gemini1 = .error e2) (h3 : out.groq0 = .error e3)
    (h4 : out.groq1 = .error m) :
    (cfg.openai = false ∧ cfg.gemini = false ∧ cfg.groq = false →
        generateContent cfg out = ([], .error .notConfigured)) ∧
    (cfg.groq = true →
        (generateContent cfg out).2 = .error (.allFailed m)) ∧
    (cfg.groq = false →
        (generateContent cfg out).2 = .error .notConfigured) := by
  obtain ⟨o, g, q⟩ := cfg
  cases o <;> cases g <;> cases q <;>
    simp [generateContent, afterOpenai, afterGemini, geminiPhase, groqPhase,
      h0, h1, h2, h3, h4]

/-- C1 witness configuration: all three adapters configured. -/
def cfgC1w : Config := ⟨true, true, true⟩

/-- C1 witness outcomes: every attempt fails; Groq's second failure is the
last cause. -/
def outC1w : Outcomes Nat :=
  ⟨.error "a", .error "b", .error "c", .error "d", .error "last cause"⟩

/-- C1 witness: full exhaustion with Groq configured yields the error naming
the last cause. -/
theorem C1_witness :
    (generateContent cfgC1w outC1w).2
      = Except.error (GenError.allFailed "last cause") :=
  (C1_error_modes cfgC1w outC1w "a" "b" "c" "d" "last cause"
    rfl rfl rfl rfl rfl).2.1 rfl

/-- C4 counterexample configuration: OpenAI absent, Gemini is the first
configured adapter. -/
def cfgC4 : Config := ⟨false, true, true⟩

/-- C4 counterexample outcomes: Gemini fails once, then succeeds. -/
def outC4 : Outcomes Nat :=
  ⟨.error "unused", .error "gemini first failed", .ok 5,
    .error "unused", .error "unused"⟩

/-- C4, counterexample: when OpenAI is not configured, the first configured
adapter (Gemini) is retried — its trace holds two attempts — so the claim
that the first configured adapter is given exactly one attempt is false. -/
theorem C4_counterexample :
    cfgC4.openai = false ∧ cfgC4.gemini = true ∧
    (generateContent cfgC4 outC4).1.countP (isAttemptOf .gemini) = 2 ∧
    (generateContent cfgC4 outC4).2 = Except.ok 5 :=
  ⟨rfl, rfl, rfl, rfl⟩

/-- C4, amended: adapters are attempted strictly in the fixed priority order
(OpenAI, Gemini, Groq); the first adapter of that fixed order — OpenAI — is
attempted exactly once when configured and never retried; and when OpenAI's
single attempt succeeds, no other adapter is invoked and its result is
returned. -/
theorem C4_priority (cfg : Config) (out : Outcomes α) (v : α) :
    (ascending ((provsOf (generateContent cfg out).1).map priorityOf) = true ∧
      (generateContent cfg out).1.countP (isAttemptOf .openai)
        = (if cfg.openai then 1 else 0)) ∧
    (cfg.openai = true → out.openai = .ok v →
      generateContent cfg out = ([.attempt .openai 0], .ok v)) := by
  obtain ⟨o, g, q⟩ := cfg
  obtain ⟨oo, g0, g1, q0, q1⟩ := out
  refine ⟨?_, ?_⟩
  · cases o <;> cases g <;> cases q <;> cases oo <;> cases g0 <;> cases g1 <;>
      cases q0 <;> cases q1 <;>
        simp [generateContent, afterOpenai, afterGemini, geminiPhase, groqPhase,
          provsOf, ascending, priorityOf, isAttemptOf,
          List.countP_cons, List.countP_nil]
  · intro ho hok
    subst ho
    simp only at hok
    subst hok
    rfl

/-- C4 witness configuration: all adapters configured. -/
def cfgC4w : Config := ⟨true, true, true⟩

/-- C4 witness outcomes: OpenAI succeeds at once. -/
def outC4w : Outcomes Nat :=
  ⟨.ok 7, .error "unused", .error "unused", .error "unused", .error "unused"⟩

/-- C4 witness: with OpenAI configured and succeeding, the run is a single
OpenAI attempt returning its result. -/
theorem C4_witness :
    generateContent cfgC4w outC4w = ([.attempt .openai 0], Except.ok 7) :=
  (C4_priority cfgC4w outC4w 7).2 rfl rfl

/-- C3: retry policy of the subsequent adapters — in every run, Gemini and
Groq each appear at most twice in the trace; the trace is well-delayed (every
delay is the fixed 2000 ms one, stands immediately before a retry attempt,
and no delay precedes a first attempt); no attempt before the final trace
event succeeds (a success ends the run at once, with no further attempt and
no further adapter); and a successful run returns exactly the last attempt's
own result. -/
theorem C3_retry_policy (cfg : Config) (out : Outcomes α) :
    (generateContent cfg out).1.countP (isAttemptOf .gemini) ≤ 2 ∧
    (generateContent cfg out).1.countP (isAttemptOf .groq) ≤ 2 ∧
    wellDelayed (generateContent cfg out).1 = true ∧
    noEarlySuccess out (generateContent cfg out).1 = true ∧
    returnsLastAttempt out (generateContent cfg out).1
      (generateContent cfg out).2 := by
  obtain ⟨o, g, q⟩ := cfg
  obtain ⟨oo, g0, g1, q0, q1⟩ := out
  cases o <;> cases g <;> cases q <;> cases oo <;> cases g0 <;> cases g1 <;>
    cases q0 <;> cases q1 <;>
      simp [generateContent, afterOpenai, afterGemini, geminiPhase, groqPhase,
        wellDelayed, noEarlySuccess, returnsLastAttempt, lastEv, outcomeAt,
        exOk, isAttemptOf, List.countP_cons, List.countP_nil]

/-- C2 counterexample request. -/
def reqC2 : UGCRequest :=
  ⟨strC "GlowBrush", strC "A smart styling brush that works in minutes",
    strC "testimonial", strC "square", strC "minimal", strC "happy",
    none, none⟩

/-- C2 counterexample parse function: the raw output is not valid JSON, so
every parse of it fails. -/
def parseC2 : Str → Option UGCFields := fun _ => none

/-- C2 counterexample engine-rendering of inherited functions (never reached
at the counterexample's inputs). -/
def renderC2 : Str → Str := fun k => strC "function " ++ k ++ strC "()"

/-- C2, counterexample: a JSON-parse failure of the UGC ad adapter's raw
output is not surfaced as a failure — `generateUGCAdContent` returns the
fabricated fallback object as a success, so the claim's UGC-ad half is
false. -/
theorem C2_counterexample :
    generateUGCAdContent true reqC2 parseC2
        (Except.ok (strC "the model replied with plain text")) renderC2
      = ugcFallback renderC2 reqC2 ∧
    exOk (ugcFallback renderC2 reqC2) = true ∧
    parseC2 (stripFences (trim (strC "the model replied with plain text")))
      = none :=
  ⟨rfl, rfl, rfl⟩

/-- C2, amended: on the text/image/video paths the property holds — an
adapter's JSON-parse failure is that adapter's failure, and a terminal
orchestrator error propagates so that no partial or fabricated response is
produced.  On the UGC ad path, every error of the try block — JSON-parse
failure included — lands in the catch block: when the request's `adType`
resolves to a string (an own `adTypeMap` key or an ordinary unknown key),
the call returns the fabricated fallback success response; when `adType` is
an inherited `Object.prototype` member name, the catch block's
`adTypeName.toLowerCase()` itself throws a TypeError, so the call fails with
that TypeError — in neither case is the parse failure surfaced as this
adapter's failure. -/
theorem C2_strictness {β : Type} (cfg : Config) (out : Outcomes GenResult)
    (request : GenRequest) (e : GenError)
    (parse : Str → Option β) (raw : Str)
    (ureq ureq2 : UGCRequest) (uparse uparse2 : Str → Option UGCFields)
    (uraw uraw2 : Str) (render : Str → Str) (aname k : Str)
    (hp : parse (stripFences (trim raw)) = none)
    (he : (generateContent cfg out).2 = .error e)
    (hu : uparse (stripFences (trim uraw)) = none)
    (hadt : adTypeName ureq.adType = JsStr.str aname)
    (hu2 : uparse2 (stripFences (trim uraw2)) = none)
    (hadt2 : adTypeName ureq2.adType = JsStr.protoFn k) :
    adapterNormalize parse (Except.ok raw)
        = Except.error "Unexpected token in JSON" ∧
    generateTextPost request cfg out = Except.error e ∧
    generateImagePost request cfg out = Except.error e ∧
    generateVideoScript request cfg out = Except.error e ∧
    generateUGCAdContent true ureq uparse (Except.ok uraw) render
        = ugcFallback render ureq ∧
    exOk (ugcFallback render ureq) = true ∧
    generateUGCAdContent true ureq2 uparse2 (Except.ok uraw2) render
        = Except.error "TypeError: adTypeName.toLowerCase is not a function" := by
  refine ⟨?_, ?_, ?_, ?_, ?_, ?_, ?_⟩
  · simp [adapterNormalize, cleanJsonResponse, hp]
  · simp [generateTextPost, he, Except.map]
  · simp [generateImagePost, he, Except.map]
  · simp [generateVideoScript, he, Except.map]
  · simp [generateUGCAdContent, hu]
  · simp [ugcFallback, hadt, exOk]
  · simp [generateUGCAdContent, hu2, ugcFallback, hadt2]

/-- C2 witness configuration: all adapters configured. -/
def cfgC2w : Config := ⟨true, true, true⟩

/-- C2 witness outcomes: every attempt fails. -/
def outC2w : Outcomes GenResult :=
  ⟨.error "v", .error "w", .error "x", .error "y", .error "zz"⟩

/-- C2 witness request. -/
def reqC2w : GenRequest := { topic := strC "anything" }

/-- C2 witness parse function that always fails. -/
def parseC2w : Str → Option GenResult := fun _ => none

/-- C2 witness UGC request whose adType is the inherited prototype key. -/
def reqC2p : UGCRequest :=
  ⟨strC "GlowBrush", strC "A smart styling brush that works in minutes",
    strC "constructor", strC "square", strC "minimal", strC "happy",
    none, none⟩

/-- C2 witness: at concrete inputs, a failing run produces an error response
on the text path, the UGC path fabricates its fallback on an ordinary
adType, and throws a TypeError on a prototype-key adType. -/
theorem C2_witness :
    generateTextPost reqC2w cfgC2w outC2w
        = Except.error (GenError.allFailed "zz") ∧
    generateUGCAdContent true reqC2 parseC2 (Except.ok (strC "bad output"))
        renderC2
      = ugcFallback renderC2 reqC2 ∧
    generateUGCAdContent true reqC2p parseC2 (Except.ok (strC "bad output"))
        renderC2
      = Except.error "TypeError: adTypeName.toLowerCase is not a function" := by
  have h := C2_strictness cfgC2w outC2w reqC2w (GenError.allFailed "zz")
    parseC2w (strC "junk") reqC2 reqC2p parseC2 parseC2
    (strC "bad output") (strC "bad output") renderC2
    (strC "Testimonial") (strC "constructor")
    rfl rfl rfl rfl rfl (by decide)
  exact ⟨h.2.1, h.2.2.2.2.1, h.2.2.2.2.2.2⟩

end CraftlyPost
